import Mathlib

/-!
Shallow embedding of `prozessleitung/pipeline.py` (class `Pipeline`, a `UserList`
of directive dictionaries) and verification of its specification claims.

Python values that occur in the pipeline are modelled by the inductive type
`Value`; Python exceptions by `Err`.  The class methods `__call__`, `_execute`,
`checkpoint`, `append`, `result_redirector`, `checkpoint_redirector`, `_get`,
`attach` and `detach` are translated one by one; mutation of `self` is made
explicit by passing the pipeline state in and out.
-/

namespace Prozessleitung

/-- Python values flowing through the pipeline.  `Value.none` is Python `None`;
`Value.func n` stands for the callable registered under name `n` in the function
environment `FEnv`; `Value.gen idxs` is the generator object created by
`result = (result[i] for i in result_select)` in `_execute` (the index iterator
is evaluated at creation time, the body subscripting is late-bound and modelled
by `consumeSelect`). -/
inductive Value : Type where
  | none : Value
  | int (n : Int) : Value
  | str (s : String) : Value
  | bool (b : Bool) : Value
  | tuple (vs : List Value) : Value
  | list (vs : List Value) : Value
  | dict (entries : List (Value × Value)) : Value
  | func (name : String) : Value
  | gen (indices : List Value) : Value

/-- Python exceptions raised by the code under `src/`.  `missingInput` is the
`ValueError` of `__call__` for absent data; `typeError` any `TypeError`;
`notFound` a `KeyError` from a dictionary lookup (the spec's NotFound);
`reservedName` the `ValueError` and `nameConflict` the `KeyError` of
`checkpoint` (together the spec's NameConflict); `notDict` and `badKey` the two
`ValueError`s of `append` (the spec's SchemaError); `keyMissing` the `KeyError`
of `directive['function']`; `indexError` an `IndexError` from sequence
subscripting; `userError` an exception raised inside a user-supplied function. -/
inductive Err : Type where
  | missingInput : Err
  | typeError : Err
  | notFound (key : Value) : Err
  | reservedName (name : Value) : Err
  | nameConflict (name : Value) : Err
  | notDict : Err
  | badKey : Err
  | keyMissing (key : String) : Err
  | indexError : Err
  | userError (msg : String) : Err

/-- Python `==` on the hashable scalar values that are used as dictionary keys
in this program (directive field names, checkpoint names).  Booleans compare
equal to the integers 0/1 as in Python.  Composite keys (tuples) do not occur
in the program's dictionaries and are treated as distinct. -/
def keyEq : Value → Value → Bool
  | Value.none, Value.none => true
  | Value.int a, Value.int b => a == b
  | Value.str a, Value.str b => a == b
  | Value.bool a, Value.bool b => a == b
  | Value.func a, Value.func b => a == b
  | Value.int a, Value.bool b => a == (if b then (1 : Int) else 0)
  | Value.bool a, Value.int b => (if a then (1 : Int) else 0) == b
  | _, _ => false

/-- A Python `dict` as an association list in insertion order.  The program
only ever inserts fresh keys (guarded in `checkpoint`), so first-match lookup
agrees with Python's lookup. -/
abbrev Store : Type := List (Value × Value)

/-- Python `d[k]` lookup over a `Store`. -/
def storeLookup : Store → Value → Option Value
  | [], _ => Option.none
  | (k, v) :: rest, q => if keyEq k q then some v else storeLookup rest q

/-- `Pipeline._get(dictionary, key)`: a `d[key]` lookup whose `KeyError` is
caught and turned into `None`. -/
def pyGet (d : Store) (k : Value) : Value :=
  (storeLookup d k).getD Value.none

/-- Python `v is None`. -/
def Value.isNone : Value → Bool
  | Value.none => true
  | _ => false

/-- Python `v == '__'` (only a string compares equal to a string literal). -/
def isUnderscore : Value → Bool
  | Value.str s => s == "__"
  | _ => false

/-- Python `v == ''`, used for the reserved-name check of `checkpoint` (the
membership test `name in ('',)`) and for the `kwargs == ''` test of
`_execute`. -/
def isEmptyStr : Value → Bool
  | Value.str s => s == ""
  | _ => false

/-- Matching of `re.match("^\$\$(.+)\$\$$", s)` on the characters of `s`:
the string must be `$$`, a non-empty run of characters other than a newline
(`.` does not match a newline), then `$$`; the non-MULTILINE `$` also matches
just before a single trailing newline, so one trailing newline is stripped
first.  Returns the characters captured by the group. -/
def ckptRefChars (l : List Char) : Option (List Char) :=
  let t := if l.getLast? = some '\n' then l.dropLast else l
  if 5 ≤ t.length ∧ t.take 2 = ['$', '$'] ∧ t.drop (t.length - 2) = ['$', '$'] ∧
      ((t.drop 2).take (t.length - 4)).all (fun c => c ≠ '\n')
  then some ((t.drop 2).take (t.length - 4))
  else Option.none

/-- The checkpoint-reference pattern of `checkpoint_redirector`, on strings. -/
def ckptRef (s : String) : Option String :=
  (ckptRefChars s.data).map (fun cs => String.mk cs)

/-- One argument of `checkpoint_redirector`: `re.match` on a non-string raises
`TypeError` (caught: the argument passes through), a failed match gives
`.groups()` on `None`, an `AttributeError` (caught: passes through); a
successful match looks the captured name up in `self.checkpoints`, whose
`KeyError` is NOT caught and propagates. -/
def redirectArg (cps : Store) (a : Value) : Except Err Value :=
  match a with
  | Value.str s =>
    match ckptRef s with
    | some name =>
      match storeLookup cps (Value.str name) with
      | some v => Except.ok v
      | Option.none => Except.error (Err.notFound (Value.str name))
    | Option.none => Except.ok a
  | _ => Except.ok a

/-- `Pipeline.checkpoint_redirector(args)`: each argument is resolved in order;
the first uncaught `KeyError` aborts the whole call. -/
def checkpointRedirector (cps : Store) : List Value → Except Err (List Value)
  | [] => Except.ok []
  | a :: rest =>
    match redirectArg cps a with
    | Except.error e => Except.error e
    | Except.ok v =>
      match checkpointRedirector cps rest with
      | Except.error e => Except.error e
      | Except.ok vs => Except.ok (v :: vs)

/-- `Pipeline.result_redirector(result, args)`: every argument equal to the
string `'__'` is replaced by the running result. -/
def resultRedirector (result : Value) (args : List Value) : List Value :=
  args.map (fun a => if isUnderscore a then result else a)

/-- Python iteration `for x in v` for the values that appear in directive
fields: tuples and lists yield their elements, a string its characters as
1-character strings, a dict its keys; other values raise `TypeError`.
(A generator object never appears as a directive field: it is only created
from a running result, which these fields are read before.) -/
def asIterable : Value → Except Err (List Value)
  | Value.tuple vs => Except.ok vs
  | Value.list vs => Except.ok vs
  | Value.str s => Except.ok (s.data.map (fun c => Value.str (String.mk [c])))
  | Value.dict entries => Except.ok (entries.map (fun e => e.1))
  | _ => Except.error Err.typeError

/-- Python sequence indexing `vs[n]`: a negative index counts from the end,
an out-of-range index raises `IndexError`. -/
def pyIndex (vs : List Value) (n : Int) : Except Err Value :=
  let m := if n < 0 then n + vs.length else n
  if 0 ≤ m ∧ m < vs.length then Except.ok (vs.getD m.toNat Value.none)
  else Except.error Err.indexError

/-- Python sequence indexing with an arbitrary value as index: integers (and
booleans, which are integers in Python) index the sequence, anything else
raises `TypeError` — in particular a string index, as in
`self.parent_pipeline[self.starting_checkpoint]`. -/
def pyIndexVal (vs : List Value) (i : Value) : Except Err Value :=
  match i with
  | Value.int n => pyIndex vs n
  | Value.bool b => pyIndex vs (if b then 1 else 0)
  | _ => Except.error Err.typeError

/-- Python subscripting `v[i]` for the value shapes reachable in this program.
A generator object is not subscriptable and raises `TypeError`. -/
def pySubscript : Value → Value → Except Err Value
  | Value.tuple vs, i => pyIndexVal vs i
  | Value.list vs, i => pyIndexVal vs i
  | Value.str s, i => pyIndexVal (s.data.map (fun c => Value.str (String.mk [c]))) i
  | Value.dict d, i =>
    match storeLookup d i with
    | some v => Except.ok v
    | Option.none => Except.error (Err.notFound i)
  | _, _ => Except.error Err.typeError

/-- Fully consuming the generator `(result[i] for i in result_select)` created
in `_execute`.  The body reads the variable `result` late, at consumption time;
`current` is the value that variable holds then.  In the source, from the
moment the generator exists, `result` has already been rebound to the
generator itself (and is later rebound to the outputs of subsequent
directives), so `current` is never the function return value the indices were
meant for. -/
def consumeSelect (current : Value) : List Value → Except Err (List Value)
  | [] => Except.ok []
  | i :: rest =>
    match pySubscript current i with
    | Except.error e => Except.error e
    | Except.ok v =>
      match consumeSelect current rest with
      | Except.error e => Except.error e
      | Except.ok vs => Except.ok (v :: vs)

/-- `Pipeline.checkpoint(name, value)`: `ValueError` if the name is in the
reserved tuple `('',)`, `KeyError` if it is already a key of
`self.checkpoints`, otherwise the pair is stored. -/
def checkpointSet (cps : Store) (name : Value) (value : Value) : Except Err Store :=
  if isEmptyStr name then Except.error (Err.reservedName name)
  else if (storeLookup cps name).isSome then Except.error (Err.nameConflict name)
  else Except.ok (cps ++ [(name, value)])

/-- The five recognised directive keys of `Pipeline.append`. -/
def allowedKeys : List Value :=
  [Value.str "function", Value.str "args", Value.str "kwargs",
   Value.str "checkpoint", Value.str "result_select"]

/-- Membership test `key in ('function', 'args', 'kwargs', 'checkpoint',
'result_select')`. -/
def validKey (k : Value) : Bool :=
  allowedKeys.any (fun a => keyEq k a)

/-- Validation of one candidate directive in `Pipeline.append`: it must be a
dict and every key must be recognised. -/
def validItem : Value → Except Err Unit
  | Value.dict entries =>
    if entries.all (fun e => validKey e.1) then Except.ok ()
    else Except.error Err.badKey
  | _ => Except.error Err.notDict

/-- The validation loop of `Pipeline.append`: every candidate is checked, in
order, before anything is appended. -/
def validateItems : List Value → Except Err Unit
  | [] => Except.ok ()
  | it :: rest =>
    match validItem it with
    | Except.error e => Except.error e
    | Except.ok _ => validateItems rest

/-- `Pipeline.append(items)`: after validation of every candidate, a sequence
of length exactly 1 is appended as a whole (`super().append(items)` receives
the sequence object itself, here rendered as `Value.list items`), otherwise
each element is appended individually. -/
def appendItems (data : List Value) (items : List Value) : Except Err (List Value) :=
  match validateItems items with
  | Except.error e => Except.error e
  | Except.ok _ =>
    if items.length = 1 then Except.ok (data ++ [Value.list items])
    else Except.ok (data ++ items)

/-- The environment binding function names to the user-supplied callables of a
run: a function receives positional arguments and keyword arguments and either
returns a value or raises. -/
def FEnv : Type := String → List Value → Store → Except Err Value

/-- Is a value a string? (`**kwargs` unpacking requires string keys.) -/
def isStrVal : Value → Bool
  | Value.str _ => true
  | _ => false

/-- The call `func(*new_args)` resp. `func(*new_args, **kwargs)` of
`_execute`, including its guard `(kwargs == '') or (kwargs is None)`: a
non-callable `func`, a non-mapping `kwargs` or non-string keyword keys raise
`TypeError`. -/
def callFunc (env : FEnv) (f : Value) (args : List Value) (kwargs : Value) :
    Except Err Value :=
  match f with
  | Value.func name =>
    if isEmptyStr kwargs || kwargs.isNone then env name args []
    else
      match kwargs with
      | Value.dict entries =>
        if entries.all (fun e => isStrVal e.1) then env name args entries
        else Except.error Err.typeError
      | _ => Except.error Err.typeError
  | _ => Except.error Err.typeError

/-- One iteration of the `for order, directive in enumerate(self)` loop of
`_execute`, acting on the checkpoint store and the running result.  The store
that each raised exception leaves behind is returned alongside the outcome,
since `self.checkpoints` keeps the entries already made. -/
def execStep (env : FEnv) (cps : Store) (result : Value) (d : Value) :
    Store × Except Err Value :=
  match d with
  | Value.dict entries =>
    match storeLookup entries (Value.str "function") with
    | Option.none => (cps, Except.error (Err.keyMissing "function"))
    | some funcv =>
      let argsRaw := pyGet entries (Value.str "args")
      let argsVal := if argsRaw.isNone then Value.tuple [Value.str "__"] else argsRaw
      let kwargs := pyGet entries (Value.str "kwargs")
      let ckpt := pyGet entries (Value.str "checkpoint")
      let rsel := pyGet entries (Value.str "result_select")
      match asIterable argsVal with
      | Except.error e => (cps, Except.error e)
      | Except.ok argList =>
        match checkpointRedirector cps (resultRedirector result argList) with
        | Except.error e => (cps, Except.error e)
        | Except.ok newArgs =>
          match callFunc env funcv newArgs kwargs with
          | Except.error e => (cps, Except.error e)
          | Except.ok r =>
            match (if ckpt.isNone then Except.ok cps else checkpointSet cps ckpt r) with
            | Except.error e => (cps, Except.error e)
            | Except.ok cps2 =>
              if rsel.isNone then (cps2, Except.ok r)
              else
                match asIterable rsel with
                | Except.error e => (cps2, Except.error e)
                | Except.ok idxs => (cps2, Except.ok (Value.gen idxs))
  | _ => (cps, Except.error Err.typeError)

/-- The directive loop of `_execute`: an exception aborts the loop but the
checkpoint store keeps everything already written. -/
def execLoop (env : FEnv) : List Value → Store → Value → Store × Except Err Value
  | [], cps, result => (cps, Except.ok result)
  | d :: rest, cps, result =>
    match execStep env cps result d with
    | (cps2, Except.error e) => (cps2, Except.error e)
    | (cps2, Except.ok r2) => execLoop env rest cps2 r2

/-- The `Pipeline` object state: the `UserList` payload `data` (the directive
container), `checkpoints`, the cached `result`, `parent_pipeline`,
`starting_checkpoint` and the write-only `from_checkpoint` attribute (absent
until `attach`/`detach` first runs, hence an `Option`).  Python `None` in
`parent_pipeline`/`starting_checkpoint` is encoded as `Option.none`. -/
inductive Pipeline : Type where
  | mk (data : List Value) (checkpoints : Store) (result : Value)
      (parent : Option Pipeline) (starting : Option Value)
      (fromCkpt : Option Bool) : Pipeline

def Pipeline.data : Pipeline → List Value
  | Pipeline.mk d _ _ _ _ _ => d

def Pipeline.checkpoints : Pipeline → Store
  | Pipeline.mk _ c _ _ _ _ => c

def Pipeline.result : Pipeline → Value
  | Pipeline.mk _ _ r _ _ _ => r

def Pipeline.parent : Pipeline → Option Pipeline
  | Pipeline.mk _ _ _ p _ _ => p

def Pipeline.starting : Pipeline → Option Value
  | Pipeline.mk _ _ _ _ s _ => s

def Pipeline.fromCkpt : Pipeline → Option Bool
  | Pipeline.mk _ _ _ _ _ f => f

/-- `Pipeline.__init__(initlist)`: the `UserList` payload is the given list
(no validation on construction), `checkpoints` empty, `result`,
`parent_pipeline` and `starting_checkpoint` are `None` and the
`from_checkpoint` attribute does not exist yet. -/
def Pipeline.init (initlist : List Value) : Pipeline :=
  Pipeline.mk initlist [] Value.none Option.none Option.none Option.none

/-- `Pipeline.attach(other_pipeline, checkpoint_name)`: sets
`from_checkpoint = True`, the parent and the starting checkpoint name. -/
def Pipeline.attach : Pipeline → Pipeline → Option Value → Pipeline
  | Pipeline.mk d c r _ _ _, par, name => Pipeline.mk d c r (some par) name (some true)

/-- `Pipeline.detach()`: sets `from_checkpoint = False` and resets the parent
and the starting checkpoint name to `None`. -/
def Pipeline.detach : Pipeline → Pipeline
  | Pipeline.mk d c r _ _ _ => Pipeline.mk d c r Option.none Option.none (some false)

/-- `Pipeline._execute(result)`: runs the directive loop starting from the
current checkpoint store; on success `self.result` is set to the final running
result, on an exception it is left as it was. -/
def Pipeline.execute (env : FEnv) : Pipeline → Value → Pipeline × Except Err Value
  | Pipeline.mk d cps r par st fc, seed =>
    match execLoop env d cps seed with
    | (cps2, Except.ok rr) => (Pipeline.mk d cps2 rr par st fc, Except.ok rr)
    | (cps2, Except.error e) => (Pipeline.mk d cps2 r par st fc, Except.error e)

/-- `Pipeline.__call__(data)`.  First `self.result` and `self.checkpoints` are
reset.  With neither data nor parent, `ValueError` (MissingInput); with both,
the source only warns and ignores the input data.  With a parent and a
starting checkpoint, the source evaluates
`self.parent_pipeline[self.starting_checkpoint]` — a subscript of the parent
`UserList`, i.e. of the parent's directive list, not of its checkpoint store;
a string key therefore raises `TypeError`, and since a list subscript raises
`TypeError` or `IndexError` but never `KeyError`, the `except KeyError` branch
(which would re-raise the "checkpoint not available" `KeyError`) cannot fire.
With a parent and no starting checkpoint the seed is the parent's cached
`result`.  Finally `_execute` runs on the seed. -/
def Pipeline.call (env : FEnv) (p : Pipeline) (input : Option Value) :
    Pipeline × Except Err Value :=
  let p0 : Pipeline :=
    Pipeline.mk p.data [] Value.none p.parent p.starting p.fromCkpt
  match p.parent with
  | Option.none =>
    match input with
    | Option.none => (p0, Except.error Err.missingInput)
    | some d => Pipeline.execute env p0 d
  | some par =>
    match p.starting with
    | some sc =>
      match pyIndexVal par.data sc with
      | Except.error e => (p0, Except.error e)
      | Except.ok seed => Pipeline.execute env p0 seed
    | Option.none => Pipeline.execute env p0 par.result

/-! Concrete scenarios used by the claims.  `envEx` supplies the user
functions of the spec's examples: `double(x) = x*2`, `add(x, y) = x+y`, a
function `pair` returning the 2-tuple `(10, 20)`, a function `boom` that
raises, and the identity function `ident`. -/

/-- Function environment for the concrete scenarios. -/
def envEx : FEnv := fun name args _kw =>
  match name, args with
  | "double", [Value.int n] => Except.ok (Value.int (2 * n))
  | "add", [Value.int a, Value.int b] => Except.ok (Value.int (a + b))
  | "pair", _ => Except.ok (Value.tuple [Value.int 10, Value.int 20])
  | "boom", _ => Except.error (Err.userError "boom")
  | "ident", [v] => Except.ok v
  | _, _ => Except.error Err.typeError

/-- The two-directive pipeline of the end-to-end scenario:
`[{function: double, checkpoint: 'a'}, {function: add, args: ('__', '$$a$$')}]`. -/
def pC1 : Pipeline := Pipeline.init
  [Value.dict [(Value.str "function", Value.func "double"),
               (Value.str "checkpoint", Value.str "a")],
   Value.dict [(Value.str "function", Value.func "add"),
               (Value.str "args", Value.tuple [Value.str "__", Value.str "$$a$$"])]]

/-- A parent pipeline with one directive that stores checkpoint `c`. -/
def pParent : Pipeline := Pipeline.init
  [Value.dict [(Value.str "function", Value.func "double"),
               (Value.str "checkpoint", Value.str "c")]]

/-- The parent after being invoked on seed `2`: its checkpoint store holds
`c = 4` and its cached result is `4`. -/
def pParentRun : Pipeline := (Pipeline.call envEx pParent (some (Value.int 2))).1

/-- A child pipeline attached to the executed parent with starting checkpoint
name `'c'`. -/
def pChild : Pipeline := (Pipeline.init []).attach pParentRun (some (Value.str "c"))

/-- A one-directive pipeline `{function: pair, result_select: (0,)}`. -/
def pC3 : Pipeline := Pipeline.init
  [Value.dict [(Value.str "function", Value.func "pair"),
               (Value.str "result_select", Value.tuple [Value.int 0])]]

/-- Two directives that both store a checkpoint under the name `'x'`. -/
def pDup : Pipeline := Pipeline.init
  [Value.dict [(Value.str "function", Value.func "double"),
               (Value.str "checkpoint", Value.str "x")],
   Value.dict [(Value.str "function", Value.func "double"),
               (Value.str "checkpoint", Value.str "x")]]

/-- A pipeline that stores checkpoint `a` and then runs a raising function. -/
def pC9 : Pipeline := Pipeline.init
  [Value.dict [(Value.str "function", Value.func "double"),
               (Value.str "checkpoint", Value.str "a")],
   Value.dict [(Value.str "function", Value.func "boom")]]

/-- A parent pipeline that has never been invoked: its cached result is
`None`. -/
def parC10 : Pipeline := Pipeline.init []

/-- A one-directive pipeline attached to the never-invoked parent without a
starting checkpoint name. -/
def pC10 : Pipeline :=
  (Pipeline.init [Value.dict [(Value.str "function", Value.func "ident")]]).attach
    parC10 Option.none

/-! Claim theorems. -/

/-- Claim C1, as stated, is false on the code: with seed `3` the first
directive yields `double(3) = 6` (stored as checkpoint `a`), and the second
computes `add('__' ↦ 6, '$$a$$' ↦ 6) = 12`, so invocation returns `12`, not
`9`. -/
theorem c1_counterexample :
    (Pipeline.call envEx pC1 (some (Value.int 3))).2 = Except.ok (Value.int 12) ∧
    (Except.ok (Value.int 12) : Except Err Value) ≠ Except.ok (Value.int 9) :=
  ⟨rfl, by simp⟩

/-- Claim C1 (amended): for the directive list
`[{function: double, checkpoint: 'a'}, {function: add, args: ('__', '$$a$$')}]`
with seed input 3, invocation stores checkpoint `a = 6` and returns the final
result `12`. -/
theorem c1_end_to_end :
    (Pipeline.call envEx pC1 (some (Value.int 3))).1.checkpoints
      = [(Value.str "a", Value.int 6)] ∧
    (Pipeline.call envEx pC1 (some (Value.int 3))).2 = Except.ok (Value.int 12) :=
  ⟨rfl, rfl⟩

/-- Claim C2: the claim describes the intended behaviour (pull the seed from
the named checkpoint of the parent's checkpoint store, or fail with NotFound),
but the code evaluates `self.parent_pipeline[self.starting_checkpoint]`, a
string subscript of the parent's directive list, which raises `TypeError`
even though the requested checkpoint `c` is present in the parent's store —
and never raises the NotFound `KeyError` either. -/
theorem c2_parent_checkpoint_pull_breaks :
    storeLookup pParentRun.checkpoints (Value.str "c") = some (Value.int 4) ∧
    pChild.parent = some pParentRun ∧
    pChild.starting = some (Value.str "c") ∧
    (Pipeline.call envEx pChild Option.none).2 = Except.error Err.typeError :=
  ⟨rfl, rfl, rfl, rfl⟩

/-- Claim C3: the claim describes the intended behaviour (a sequence whose
elements are the call's return value indexed at each given index), but the
generator `(result[i] for i in result_select)` late-binds the variable
`result`, which is rebound to the generator itself immediately after creation;
consuming the returned sequence therefore subscripts the generator object and
raises `TypeError` instead of yielding `pair()[0] = 10` (the third conjunct
shows what consumption would give if the body had captured the call's return
value `(10, 20)` as the claim states). -/
theorem c3_result_select_generator_breaks :
    (Pipeline.call envEx pC3 (some Value.none)).2 = Except.ok (Value.gen [Value.int 0]) ∧
    consumeSelect (Value.gen [Value.int 0]) [Value.int 0] = Except.error Err.typeError ∧
    consumeSelect (Value.tuple [Value.int 10, Value.int 20]) [Value.int 0]
      = Except.ok [Value.int 10] :=
  ⟨rfl, rfl, rfl⟩

/-- Claim C5: a checkpoint write fails with the reserved-name error for the
empty string, fails with the name-conflict error when the name is already
present in the store, succeeds (storing the value) otherwise, and for two
directives storing checkpoints under the same name the invocation raises the
name conflict on the second (the spec's NameConflict covers both error
constructors). -/
theorem c5_checkpoint_write_conflicts :
    (∀ (cps : Store) (v : Value),
        checkpointSet cps (Value.str "") v
          = Except.error (Err.reservedName (Value.str ""))) ∧
    (∀ (cps : Store) (name v w : Value), isEmptyStr name = false →
        storeLookup cps name = some w →
        checkpointSet cps name v = Except.error (Err.nameConflict name)) ∧
    (∀ (cps : Store) (name v : Value), isEmptyStr name = false →
        storeLookup cps name = Option.none →
        checkpointSet cps name v = Except.ok (cps ++ [(name, v)])) ∧
    (Pipeline.call envEx pDup (some (Value.int 1))).2
      = Except.error (Err.nameConflict (Value.str "x")) := by
  refine ⟨fun cps v => rfl, ?_, ?_, rfl⟩
  · intro cps name v w h1 h2
    simp [checkpointSet, h1, h2]
  · intro cps name v h1 h2
    simp [checkpointSet, h1, h2]

/-- Witness for C5: writing `x` a second time into a store that already holds
`x` raises the name conflict. -/
theorem c5_witness :
    checkpointSet [(Value.str "x", Value.int 1)] (Value.str "x") (Value.int 2)
      = Except.error (Err.nameConflict (Value.str "x")) :=
  c5_checkpoint_write_conflicts.2.1 [(Value.str "x", Value.int 1)] (Value.str "x")
    (Value.int 2) (Value.int 1) rfl rfl

/-- Claim C7: `attach(p, 'c')` followed immediately by `detach()` restores the
unattached behaviour — invoking with no explicit input afterwards raises the
MissingInput error, exactly as for any pipeline whose parent is unset. -/
theorem c7_attach_detach_roundtrip :
    (∀ (env : FEnv) (p q : Pipeline) (name : Option Value),
        (Pipeline.call env ((p.attach q name).detach) Option.none).2
          = Except.error Err.missingInput) ∧
    (∀ (env : FEnv) (p : Pipeline), p.parent = Option.none →
        (Pipeline.call env p Option.none).2 = Except.error Err.missingInput) := by
  constructor
  · intro env p q name
    cases p with
    | mk d c r pr st fc => rfl
  · intro env p h
    cases p with
    | mk d c r pr st fc =>
      cases pr with
      | none => rfl
      | some q => simp [Pipeline.parent] at h

/-- Witness for C7: the round trip and the never-attached pipeline both raise
MissingInput on a concrete instance. -/
theorem c7_witness :
    (Pipeline.call envEx (((Pipeline.init []).attach (Pipeline.init [])
        (some (Value.str "c"))).detach) Option.none).2
      = Except.error Err.missingInput ∧
    (Pipeline.call envEx (Pipeline.init []) Option.none).2
      = Except.error Err.missingInput :=
  ⟨c7_attach_detach_roundtrip.1 envEx (Pipeline.init []) (Pipeline.init [])
      (some (Value.str "c")),
   c7_attach_detach_roundtrip.2 envEx (Pipeline.init []) rfl⟩

/-- Characterisation of `redirectArg` success: either the argument is a string
matching the checkpoint-reference pattern whose name is in the store and the
output is the stored value, or the output equals the input and the input is
not a matching string. -/
lemma redirectArg_ok_iff (cps : Store) (a v : Value) :
    redirectArg cps a = Except.ok v ↔
      ((∃ s name, a = Value.str s ∧ ckptRef s = some name ∧
          storeLookup cps (Value.str name) = some v) ∨
       (v = a ∧ ∀ s, a = Value.str s → ckptRef s = Option.none)) := by
  cases a <;> simp [redirectArg, eq_comm]
  case str s =>
    cases h : ckptRef s with
    | none => simp [h, eq_comm]
    | some name =>
      cases h2 : storeLookup cps (Value.str name) with
      | none => simp [h, h2]
      | some w => simp [h, h2, eq_comm]

/-- Characterisation of `redirectArg` failure: only a string matching the
checkpoint-reference pattern with a name absent from the store raises, and it
raises the NotFound error for that name. -/
lemma redirectArg_error_iff (cps : Store) (a : Value) (e : Err) :
    redirectArg cps a = Except.error e ↔
      ∃ s name, a = Value.str s ∧ ckptRef s = some name ∧
        storeLookup cps (Value.str name) = Option.none ∧
        e = Err.notFound (Value.str name) := by
  cases a <;> simp [redirectArg]
  case str s =>
    cases h : ckptRef s with
    | none => simp [h]
    | some name =>
      cases h2 : storeLookup cps (Value.str name) with
      | none => simp [h, h2, eq_comm]
      | some w => simp [h, h2]

/-- On success, `checkpoint_redirector` preserves length and resolves each
argument independently. -/
lemma checkpointRedirector_ok_elems (cps : Store) :
    ∀ (args res : List Value), checkpointRedirector cps args = Except.ok res →
      res.length = args.length ∧
      ∀ i, i < args.length →
        redirectArg cps (args.getD i Value.none) = Except.ok (res.getD i Value.none) := by
  intro args
  induction args with
  | nil =>
    intro res h
    simp only [checkpointRedirector] at h
    injection h with h2
    subst h2
    exact ⟨rfl, fun i hi => absurd hi (by simp)⟩
  | cons a rest ih =>
    intro res h
    simp only [checkpointRedirector] at h
    cases ha : redirectArg cps a with
    | error e => rw [ha] at h; cases h
    | ok v =>
      rw [ha] at h
      cases hr : checkpointRedirector cps rest with
      | error e => rw [hr] at h; cases h
      | ok vs =>
        rw [hr] at h
        injection h with h2
        subst h2
        obtain ⟨hlen, helem⟩ := ih vs hr
        refine ⟨by simp [hlen], ?_⟩
        intro i hi
        cases i with
        | zero => simpa using ha
        | succ j =>
          simp only [List.getD_cons_succ]
          exact helem j (by simpa using hi)

/-- On failure, the error of `checkpoint_redirector` comes from the resolution
of one of the arguments. -/
lemma checkpointRedirector_error_source (cps : Store) :
    ∀ (args : List Value) (e : Err), checkpointRedirector cps args = Except.error e →
      ∃ i, i < args.length ∧ redirectArg cps (args.getD i Value.none) = Except.error e := by
  intro args
  induction args with
  | nil => intro e h; simp only [checkpointRedirector] at h; cases h
  | cons a rest ih =>
    intro e h
    simp only [checkpointRedirector] at h
    cases ha : redirectArg cps a with
    | error e2 =>
      rw [ha] at h
      injection h with h2
      subst h2
      exact ⟨0, by simp, by simpa using ha⟩
    | ok v =>
      rw [ha] at h
      cases hr : checkpointRedirector cps rest with
      | error e2 =>
        rw [hr] at h
        injection h with h2
        subst h2
        obtain ⟨i, hi, hred⟩ := ih e2 hr
        exact ⟨i + 1, by simpa using hi, by simpa using hred⟩
      | ok vs => rw [hr] at h; cases h

/-- If some argument is a matching checkpoint reference whose name is absent
from the store, `checkpoint_redirector` raises. -/
lemma checkpointRedirector_error_exists (cps : Store) :
    ∀ (args : List Value),
      (∃ i s name, i < args.length ∧ args.getD i Value.none = Value.str s ∧
        ckptRef s = some name ∧ storeLookup cps (Value.str name) = Option.none) →
      ∃ e, checkpointRedirector cps args = Except.error e := by
  intro args
  induction args with
  | nil => rintro ⟨i, s, name, hi, _⟩; simp at hi
  | cons a rest ih =>
    rintro ⟨i, s, name, hi, hgd, hck, hlk⟩
    simp only [checkpointRedirector]
    cases ha : redirectArg cps a with
    | error e => exact ⟨e, rfl⟩
    | ok v =>
      cases i with
      | zero =>
        simp only [List.getD_cons_zero] at hgd
        subst hgd
        have : redirectArg cps (Value.str s) = Except.error (Err.notFound (Value.str name)) := by
          simp [redirectArg, hck, hlk]
        rw [this] at ha
        cases ha
      | succ j =>
        obtain ⟨e, he⟩ :=
          ih ⟨j, s, name, by simpa using hi, by simpa using hgd, hck, hlk⟩
        rw [he]
        exact ⟨e, rfl⟩

/-- Claim C4: for every directive argument list, a string argument matching
the checkpoint-reference pattern is replaced by the stored checkpoint value
when the name is present in the store; non-matching or non-string arguments
pass through unchanged; and when some matching reference names an absent
checkpoint, resolution fails with a NotFound error naming an absent referenced
checkpoint (and every failure is of that form). -/
theorem c4_checkpoint_reference_resolution (cps : Store) (args : List Value) :
    (∀ res, checkpointRedirector cps args = Except.ok res →
      res.length = args.length ∧
      ∀ i, i < args.length →
        ((∃ s name v, args.getD i Value.none = Value.str s ∧ ckptRef s = some name ∧
            storeLookup cps (Value.str name) = some v ∧ res.getD i Value.none = v) ∨
         (res.getD i Value.none = args.getD i Value.none ∧
            ∀ s, args.getD i Value.none = Value.str s → ckptRef s = Option.none))) ∧
    (∀ e, checkpointRedirector cps args = Except.error e →
      ∃ name, e = Err.notFound (Value.str name) ∧
        storeLookup cps (Value.str name) = Option.none ∧
        ∃ i s, i < args.length ∧ args.getD i Value.none = Value.str s ∧
          ckptRef s = some name) ∧
    ((∃ i s name, i < args.length ∧ args.getD i Value.none = Value.str s ∧
        ckptRef s = some name ∧ storeLookup cps (Value.str name) = Option.none) →
      ∃ name2, checkpointRedirector cps args
          = Except.error (Err.notFound (Value.str name2)) ∧
        storeLookup cps (Value.str name2) = Option.none) := by
  refine ⟨?_, ?_, ?_⟩
  · intro res h
    obtain ⟨hlen, helem⟩ := checkpointRedirector_ok_elems cps args res h
    refine ⟨hlen, ?_⟩
    intro i hi
    have hr := helem i hi
    rw [redirectArg_ok_iff] at hr
    rcases hr with ⟨s, name, hs, hn, hl⟩ | ⟨hv, hall⟩
    · exact Or.inl ⟨s, name, res.getD i Value.none, hs, hn, hl, rfl⟩
    · exact Or.inr ⟨hv, hall⟩
  · intro e h
    obtain ⟨i, hi, hred⟩ := checkpointRedirector_error_source cps args e h
    rw [redirectArg_error_iff] at hred
    obtain ⟨s, name, hs, hn, hl, he⟩ := hred
    exact ⟨name, he, hl, i, s, hi, hs, hn⟩
  · rintro ⟨i, s, name, hi, hs, hn, hl⟩
    obtain ⟨e, he⟩ :=
      checkpointRedirector_error_exists cps args ⟨i, s, name, hi, hs, hn, hl⟩
    obtain ⟨i2, hi2, hred⟩ := checkpointRedirector_error_source cps args e he
    rw [redirectArg_error_iff] at hred
    obtain ⟨s2, name2, hs2, hn2, hl2, he2⟩ := hred
    subst he2
    exact ⟨name2, he, hl2⟩

/-- Witness for C4: in the store `{'a': 5}`, the argument list
`('$$a$$', 7)` resolves elementwise, the reference being replaced by the
stored value `5`. -/
theorem c4_witness :
    (∃ s name v,
        ([Value.str "$$a$$", Value.int 7] : List Value).getD 0 Value.none = Value.str s ∧
        ckptRef s = some name ∧
        storeLookup [(Value.str "a", Value.int 5)] (Value.str name) = some v ∧
        ([Value.int 5, Value.int 7] : List Value).getD 0 Value.none = v) ∨
    (([Value.int 5, Value.int 7] : List Value).getD 0 Value.none
        = ([Value.str "$$a$$", Value.int 7] : List Value).getD 0 Value.none ∧
      ∀ s, ([Value.str "$$a$$", Value.int 7] : List Value).getD 0 Value.none
          = Value.str s → ckptRef s = Option.none) :=
  ((c4_checkpoint_reference_resolution [(Value.str "a", Value.int 5)]
      [Value.str "$$a$$", Value.int 7]).1 [Value.int 5, Value.int 7] rfl).2 0
    (by simp)

/-- The validation loop of `append` succeeds exactly when every candidate is
valid. -/
lemma validateItems_ok_iff : ∀ (items : List Value),
    validateItems items = Except.ok () ↔ ∀ it ∈ items, validItem it = Except.ok () := by
  intro items
  induction items with
  | nil => simp [validateItems]
  | cons a rest ih =>
    cases ha : validItem a with
    | error e => simp [validateItems, ha]
    | ok u => cases u; simp [validateItems, ha, ih]

/-- A validation failure of `append` is the failure of one of the
candidates. -/
lemma validateItems_error_mem : ∀ (items : List Value) (e : Err),
    validateItems items = Except.error e → ∃ it ∈ items, validItem it = Except.error e := by
  intro items
  induction items with
  | nil => intro e h; simp only [validateItems] at h; cases h
  | cons a rest ih =>
    intro e h
    simp only [validateItems] at h
    cases ha : validItem a with
    | error e2 =>
      rw [ha] at h
      injection h with h2
      subst h2
      exact ⟨a, by simp, ha⟩
    | ok u =>
      cases u
      rw [ha] at h
      obtain ⟨it, hit, hv⟩ := ih e h
      exact ⟨it, by simp [hit], hv⟩

/-- `validItem` only fails with one of the two schema errors. -/
lemma validItem_error_shape (it : Value) (e : Err) (h : validItem it = Except.error e) :
    e = Err.notDict ∨ e = Err.badKey := by
  cases it <;> try (injection h with h2; exact Or.inl h2.symm)
  case dict entries =>
    simp only [validItem] at h
    split at h
    · simp at h
    · injection h with h2
      exact Or.inr h2.symm

/-- Claim C6: `append` validates every candidate (record-like with recognised
keys) before anything is appended: success implies every candidate was valid,
a failure is one of the two SchemaError cases and is the failure of one of the
candidates (so the container value is only produced in the all-valid case),
and an invalid candidate anywhere in the sequence forces a failure. -/
theorem c6_append_validates_before_appending (data items : List Value) :
    (∀ r, appendItems data items = Except.ok r →
        ∀ it ∈ items, validItem it = Except.ok ()) ∧
    (∀ e, appendItems data items = Except.error e →
        (e = Err.notDict ∨ e = Err.badKey) ∧
        ∃ it ∈ items, validItem it = Except.error e) ∧
    ((∃ it ∈ items, validItem it ≠ Except.ok ()) →
        ∃ e, appendItems data items = Except.error e) := by
  refine ⟨?_, ?_, ?_⟩
  · intro r h it hit
    cases hv : validateItems items with
    | error e =>
      rw [show appendItems data items = Except.error e by simp [appendItems, hv]] at h
      cases h
    | ok u =>
      cases u
      exact (validateItems_ok_iff items).mp hv it hit
  · intro e h
    cases hv : validateItems items with
    | ok u =>
      cases u
      by_cases hl : items.length = 1
      · rw [show appendItems data items = Except.ok (data ++ [Value.list items]) by
            simp [appendItems, hv, hl]] at h
        cases h
      · rw [show appendItems data items = Except.ok (data ++ items) by
            simp [appendItems, hv, hl]] at h
        cases h
    | error e2 =>
      rw [show appendItems data items = Except.error e2 by simp [appendItems, hv]] at h
      injection h with h2
      subst h2
      obtain ⟨it, hit, hverr⟩ := validateItems_error_mem items e2 hv
      exact ⟨validItem_error_shape it e2 hverr, it, hit, hverr⟩
  · rintro ⟨it, hit, hne⟩
    cases hv : validateItems items with
    | error e => exact ⟨e, by simp [appendItems, hv]⟩
    | ok u =>
      cases u
      exact absurd ((validateItems_ok_iff items).mp hv it hit) hne

/-- Witness for C6: a sequence holding one valid directive and one non-dict
candidate makes `append` fail. -/
theorem c6_witness :
    ∃ e, appendItems []
        [Value.dict [(Value.str "function", Value.func "f")], Value.int 3]
      = Except.error e :=
  (c6_append_validates_before_appending []
      [Value.dict [(Value.str "function", Value.func "f")], Value.int 3]).2.2
    ⟨Value.int 3, by simp, by simp [validItem]⟩

/-- Claim C8: a sequence of exactly one valid directive is appended as the
sequence object itself — one element wrapping the directive, distinct from the
directive record — while a sequence of two or more valid directives is
appended elementwise. -/
theorem c8_singleton_appended_as_sequence :
    (∀ (data : List Value) (d : Value), validItem d = Except.ok () →
        appendItems data [d] = Except.ok (data ++ [Value.list [d]]) ∧
        Value.list [d] ≠ d) ∧
    (∀ (data items : List Value), 2 ≤ items.length →
        (∀ it ∈ items, validItem it = Except.ok ()) →
        appendItems data items = Except.ok (data ++ items)) := by
  constructor
  · intro data d h
    constructor
    · have hv : validateItems [d] = Except.ok () := by
        rw [validateItems_ok_iff]
        intro it hit
        rw [List.mem_singleton] at hit
        subst hit
        exact h
      simp [appendItems, hv]
    · cases d <;> simp [validItem] at h ⊢
  · intro data items hlen hall
    have hv : validateItems items = Except.ok () := (validateItems_ok_iff items).mpr hall
    have hne : items.length ≠ 1 := by omega
    simp [appendItems, hv, hne]

/-- Witness for C8: appending the singleton sequence holding one directive
stores the sequence, not the directive. -/
theorem c8_witness :
    appendItems [] [Value.dict [(Value.str "function", Value.func "f")]]
      = Except.ok [Value.list [Value.dict [(Value.str "function", Value.func "f")]]] :=
  (c8_singleton_appended_as_sequence.1 []
      (Value.dict [(Value.str "function", Value.func "f")]) rfl).1

/-- A first-match lookup that succeeds in a store still succeeds, with the
same value, after entries are appended on the right. -/
lemma storeLookup_append_of_some :
    ∀ (cps suffix : Store) (name v : Value),
      storeLookup cps name = some v → storeLookup (cps ++ suffix) name = some v := by
  intro cps
  induction cps with
  | nil => intro suffix name v h; simp only [storeLookup] at h; cases h
  | cons a rest ih =>
    intro suffix name v h
    cases a with
    | mk k w =>
      simp only [storeLookup] at h
      simp only [List.cons_append, storeLookup]
      cases hk : keyEq k name with
      | true =>
        rw [hk] at h
        simp only [if_true] at h ⊢
        exact h
      | false =>
        rw [hk] at h
        simp only [Bool.false_eq_true, if_false] at h ⊢
        exact ih suffix name v h

/-- A successful checkpoint write appends the new entry to the store. -/
lemma checkpointSet_extends (cps : Store) (k v : Value) (cps2 : Store)
    (h : checkpointSet cps k v = Except.ok cps2) : cps2 = cps ++ [(k, v)] := by
  simp only [checkpointSet] at h
  split at h
  · cases h
  · split at h
    · cases h
    · injection h with h2
      exact h2.symm

/-- One directive never removes or overwrites checkpoint-store entries: the
store after `execStep` extends the store before it. -/
lemma execStep_extends (env : FEnv) (cps : Store) (r : Value) (d : Value) :
    ∃ suffix, (execStep env cps r d).1 = cps ++ suffix := by
  cases d
  case dict entries =>
    simp only [execStep]
    split
    · exact ⟨[], (List.append_nil cps).symm⟩
    · split
      · exact ⟨[], (List.append_nil cps).symm⟩
      · split
        · exact ⟨[], (List.append_nil cps).symm⟩
        · split
          · exact ⟨[], (List.append_nil cps).symm⟩
          · split
            · exact ⟨[], (List.append_nil cps).symm⟩
            · rename_i cps2 hset
              have hsuf : ∃ suffix, cps2 = cps ++ suffix := by
                split at hset
                · injection hset with h2
                  exact ⟨[], h2.symm.trans (List.append_nil cps).symm⟩
                · exact ⟨_, checkpointSet_extends cps _ _ cps2 hset⟩
              obtain ⟨suffix, hsuffix⟩ := hsuf
              subst hsuffix
              refine ⟨suffix, ?_⟩
              split
              · rfl
              · split
                · rfl
                · rfl
  all_goals exact ⟨[], (List.append_nil cps).symm⟩

/-- The directive loop never removes or overwrites checkpoint-store entries,
whether it succeeds or raises. -/
lemma execLoop_extends (env : FEnv) :
    ∀ (ds : List Value) (cps : Store) (seed : Value),
      ∃ suffix, (execLoop env ds cps seed).1 = cps ++ suffix := by
  intro ds
  induction ds with
  | nil => intro cps seed; exact ⟨[], (List.append_nil cps).symm⟩
  | cons d rest ih =>
    intro cps seed
    simp only [execLoop]
    cases hs : execStep env cps seed d with
    | mk cps2 out =>
      obtain ⟨suf1, hsuf1⟩ := execStep_extends env cps seed d
      rw [hs] at hsuf1
      cases out with
      | error e => exact ⟨suf1, hsuf1⟩
      | ok r2 =>
        obtain ⟨suf2, hsuf2⟩ := ih cps2 r2
        refine ⟨suf1 ++ suf2, ?_⟩
        rw [hsuf2]
        simp only at hsuf1
        rw [hsuf1, List.append_assoc]

/-- Running the loop on `pre ++ rest` first runs it on `pre`; when the prefix
succeeds with store `cps1` and running result `r1`, the whole loop continues
as the loop on `rest` from that state. -/
lemma execLoop_append_of_prefix_ok (env : FEnv) :
    ∀ (pre rest : List Value) (cps : Store) (seed : Value) (cps1 : Store) (r1 : Value),
      execLoop env pre cps seed = (cps1, Except.ok r1) →
      execLoop env (pre ++ rest) cps seed = execLoop env rest cps1 r1 := by
  intro pre
  induction pre with
  | nil =>
    intro rest cps seed cps1 r1 h
    simp only [execLoop, Prod.mk.injEq, Except.ok.injEq] at h
    obtain ⟨h1, h2⟩ := h
    subst h1
    subst h2
    rfl
  | cons d pre2 ih =>
    intro rest cps seed cps1 r1 h
    simp only [execLoop] at h
    simp only [List.cons_append, execLoop]
    cases hs : execStep env cps seed d with
    | mk cps2 out =>
      rw [hs] at h
      cases out with
      | error e => simp at h
      | ok r2 => exact ih rest cps2 r2 cps1 r1 h

/-- On an exception, `_execute` leaves `self.result` untouched and returns the
checkpoint store exactly as the directive loop left it. -/
lemma execute_error_state (env : FEnv) (d : List Value) (cps : Store)
    (r : Value) (pr : Option Pipeline) (st : Option Value) (fc : Option Bool)
    (seed : Value) (p2 : Pipeline) (e : Err)
    (h : Pipeline.execute env (Pipeline.mk d cps r pr st fc) seed
        = (p2, Except.error e)) :
    ∃ cps2, execLoop env d cps seed = (cps2, Except.error e) ∧
      p2 = Pipeline.mk d cps2 r pr st fc := by
  simp only [Pipeline.execute] at h
  cases hx : execLoop env d cps seed with
  | mk cps2 out =>
    rw [hx] at h
    cases out with
    | ok rr => simp at h
    | error e2 =>
      simp only [Prod.mk.injEq] at h
      injection h.2 with he
      subst he
      exact ⟨cps2, rfl, h.1.symm⟩

/-- Claim C9: whenever an invocation fails, the returned pipeline state has
its cached result still unset (`None`), and its checkpoint store is either
empty (the failure precedes the directive loop, so no checkpoint of this run
existed) or exactly the store the directive loop accumulated up to the
exception (first conjunct); and, universally, whatever store a successful
prefix of the directive list produced is retained entry-for-entry in the
store of the whole run, whether the remaining directives succeed or raise
(second conjunct).  The third conjunct shows the concrete failing invocation
of `pC9` retaining checkpoint `a = 6` with the result `None`. -/
theorem c9_failed_call_keeps_checkpoints :
    (∀ (env : FEnv) (p : Pipeline) (input : Option Value) (p2 : Pipeline) (e : Err),
        Pipeline.call env p input = (p2, Except.error e) →
        p2.result = Value.none ∧
        (p2.checkpoints = [] ∨
          ∃ seed, execLoop env p.data [] seed = (p2.checkpoints, Except.error e))) ∧
    (∀ (env : FEnv) (pre rest : List Value) (cps : Store) (seed : Value)
        (cps1 : Store) (r1 : Value),
        execLoop env pre cps seed = (cps1, Except.ok r1) →
        ∀ name v, storeLookup cps1 name = some v →
          storeLookup (execLoop env (pre ++ rest) cps seed).1 name = some v) ∧
    Pipeline.call envEx pC9 (some (Value.int 3))
      = (Pipeline.mk pC9.data [(Value.str "a", Value.int 6)] Value.none
          Option.none Option.none Option.none,
        Except.error (Err.userError "boom")) := by
  refine ⟨?_, ?_, rfl⟩
  · intro env p input p2 e h
    cases p with
    | mk d c r pr st fc =>
      cases pr with
      | none =>
        cases input with
        | none =>
          simp only [Pipeline.call, Pipeline.data, Pipeline.parent, Pipeline.starting,
            Pipeline.fromCkpt, Prod.mk.injEq] at h
          rw [← h.1]
          exact ⟨rfl, Or.inl rfl⟩
        | some dv =>
          simp only [Pipeline.call, Pipeline.data, Pipeline.parent, Pipeline.starting,
            Pipeline.fromCkpt] at h
          obtain ⟨cps2, hx, hp2⟩ :=
            execute_error_state env d [] Value.none Option.none st fc dv p2 e h
          subst hp2
          exact ⟨rfl, Or.inr ⟨dv, hx⟩⟩
      | some par =>
        cases par with
        | mk dp cp rp prp stp fcp =>
          cases st with
          | none =>
            simp only [Pipeline.call, Pipeline.data, Pipeline.parent, Pipeline.starting,
              Pipeline.fromCkpt, Pipeline.result] at h
            obtain ⟨cps2, hx, hp2⟩ :=
              execute_error_state env d [] Value.none
                (some (Pipeline.mk dp cp rp prp stp fcp)) Option.none fc rp p2 e h
            subst hp2
            exact ⟨rfl, Or.inr ⟨rp, hx⟩⟩
          | some sc =>
            simp only [Pipeline.call, Pipeline.data, Pipeline.parent, Pipeline.starting,
              Pipeline.fromCkpt] at h
            cases hx0 : pyIndexVal dp sc with
            | error e2 =>
              rw [hx0] at h
              simp only [Prod.mk.injEq] at h
              rw [← h.1]
              exact ⟨rfl, Or.inl rfl⟩
            | ok seed =>
              rw [hx0] at h
              obtain ⟨cps2, hx, hp2⟩ :=
                execute_error_state env d [] Value.none
                  (some (Pipeline.mk dp cp rp prp stp fcp)) (some sc) fc seed p2 e h
              subst hp2
              exact ⟨rfl, Or.inr ⟨seed, hx⟩⟩
  · intro env pre rest cps seed cps1 r1 hpre name v hname
    rw [execLoop_append_of_prefix_ok env pre rest cps seed cps1 r1 hpre]
    obtain ⟨suffix, hsuf⟩ := execLoop_extends env rest cps1 r1
    rw [hsuf]
    exact storeLookup_append_of_some cps1 suffix name v hname

/-- Witness for C9: instantiating the retention conjunct on `pC9` split after
its first directive — the successful prefix wrote `a = 6` from the reset
store, and that entry is still found in the store of the whole failing run. -/
theorem c9_witness :
    storeLookup (execLoop envEx pC9.data [] (Value.int 3)).1 (Value.str "a")
      = some (Value.int 6) :=
  c9_failed_call_keeps_checkpoints.2.1 envEx
    [Value.dict [(Value.str "function", Value.func "double"),
                 (Value.str "checkpoint", Value.str "a")]]
    [Value.dict [(Value.str "function", Value.func "boom")]]
    [] (Value.int 3) [(Value.str "a", Value.int 6)] (Value.int 6) rfl
    (Value.str "a") (Value.int 6) rfl

/-- Claim C10: a pipeline attached to a parent without a starting-checkpoint
name, invoked with no explicit input, proceeds to execute its directives with
the parent's cached result as the seed — in particular (second conjunct) with
a never-invoked parent the seed is `None` and the invocation completes without
MissingInput or NotFound. -/
theorem c10_parent_result_is_seed :
    (∀ (env : FEnv) (p par : Pipeline), p.parent = some par →
        p.starting = Option.none →
        Pipeline.call env p Option.none
          = Pipeline.execute env
              (Pipeline.mk p.data [] Value.none p.parent p.starting p.fromCkpt)
              par.result) ∧
    ((Pipeline.call envEx pC10 Option.none).2 = Except.ok Value.none ∧
      parC10.result = Value.none) := by
  constructor
  · intro env p par h1 h2
    cases p with
    | mk d c r pr st fc =>
      simp only [Pipeline.parent] at h1
      simp only [Pipeline.starting] at h2
      subst h1
      subst h2
      rfl
  · exact ⟨rfl, rfl⟩

/-- Witness for C10: the attached pipeline `pC10` pulls the (never-invoked)
parent's `None` result as its seed. -/
theorem c10_witness :
    Pipeline.call envEx pC10 Option.none
      = Pipeline.execute envEx
          (Pipeline.mk pC10.data [] Value.none pC10.parent pC10.starting pC10.fromCkpt)
          parC10.result :=
  c10_parent_result_is_seed.1 envEx pC10 parC10 rfl rfl

end Prozessleitung
